import Mathlib

/-!
Shallow embedding of the `backtrack` repository: three standalone paramiko
scripts (`scripts/ssh_download.py`, `scripts/ssh_mac.py`,
`scripts/ssh_mac_interactive.py`).  Network I/O, sleeps and console prints are
modelled as an explicit event trace; the SSH channel is modelled as an
environment oracle (one entry per poll iteration).  Time is measured in
deciseconds (1 ds = 0.1 s), the granularity of the busy-poll sleep, so the
30-second inactivity window is 300 ds, the 2-second settle delay is 20 ds and
the 1-second shell-readiness wait is 10 ds.
-/

namespace Backtrack

/-- Observable actions of a script run: console prints, channel traffic,
sleeps, resource management.  `sleepDs n` is a sleep of `n` deciseconds. -/
inductive Event where
  | printMsg (s : String)
  | printData (cps : List Nat)
  | send (s : String)
  | recvChunk (bytes : List Nat)
  | drainRecv (bytes : List Nat)
  | sleepDs (n : Nat)
  | connectEv
  | invokeShell
  | setChannelTimeout (secs : Nat)
  | sftpOpen
  | sftpGet (remotePath localPath : String)
  | sftpClose
  | execCommand (cmd : String) (timeoutSecs : Nat)
  | readStdout
  | readStderr
  | closeEv
  deriving DecidableEq, Repr

/-- Number of times the SSH connection handle is closed in a trace. -/
def closeCount (tr : List Event) : Nat :=
  tr.countP (fun e => match e with | Event.closeEv => true | _ => false)

/-- Number of idle busy-poll sleeps (0.1 s each) in a trace. -/
def tickCount (tr : List Event) : Nat :=
  tr.countP (fun e => match e with | Event.sleepDs 1 => true | _ => false)

/-- Payload of a channel send, if the event is one. -/
def sendOf : Event → Option String
  | Event.send s => some s
  | _ => none

/-- Payload printed by the incremental data echo, if the event is one. -/
def printedDataOf : Event → Option (List Nat)
  | Event.printData d => some d
  | _ => none

/-- Bytes received by the collection loop, if the event is one. -/
def recvChunkOf : Event → Option (List Nat)
  | Event.recvChunk b => some b
  | _ => none

/-- Whether the event is a sleep of any duration. -/
def isSleep : Event → Bool
  | Event.sleepDs _ => true
  | _ => false

/-! ### UTF-8 decoding with `errors='ignore'`

Model of Python `bytes.decode('utf-8', errors='ignore')` as used by the
interactive script: valid UTF-8 sequences decode to their code points,
malformed bytes are skipped (the decoder resumes right after the offending
lead byte) and decoding is a total function — it never fails. -/

/-- A UTF-8 continuation byte: `0x80 ≤ c ≤ 0xBF`. -/
def isCont (c : Nat) : Bool := 0x80 ≤ c && c ≤ 0xBF

/-- Allowed first continuation byte after a three-byte lead (excludes
overlong encodings after `0xE0` and surrogates after `0xED`). -/
def isCont3 (b c : Nat) : Bool :=
  if b = 0xE0 then 0xA0 ≤ c && c ≤ 0xBF
  else if b = 0xED then 0x80 ≤ c && c ≤ 0x9F
  else isCont c

/-- Allowed first continuation byte after a four-byte lead (excludes
overlong encodings after `0xF0` and code points above `U+10FFFF` after
`0xF4`). -/
def isCont4 (b c : Nat) : Bool :=
  if b = 0xF0 then 0x90 ≤ c && c ≤ 0xBF
  else if b = 0xF4 then 0x80 ≤ c && c ≤ 0x8F
  else isCont c

/-- Decode one UTF-8 symbol: given the lead byte `b` and the remaining
bytes, return the decoded code point (or `none` if `b` starts a malformed
sequence, which is skipped) and the bytes left to decode. -/
def utf8Step (b : Nat) (rest : List Nat) : Option Nat × List Nat :=
  if b ≤ 0x7F then (some b, rest)
  else if 0xC2 ≤ b && b ≤ 0xDF then
    match rest with
    | c1 :: r =>
      if isCont c1 then (some ((b - 0xC0) * 0x40 + (c1 - 0x80)), r) else (none, rest)
    | [] => (none, [])
  else if 0xE0 ≤ b && b ≤ 0xEF then
    match rest with
    | c1 :: c2 :: r =>
      if isCont3 b c1 && isCont c2 then
        (some ((b - 0xE0) * 0x1000 + (c1 - 0x80) * 0x40 + (c2 - 0x80)), r)
      else (none, rest)
    | _ => (none, rest)
  else if 0xF0 ≤ b && b ≤ 0xF4 then
    match rest with
    | c1 :: c2 :: c3 :: r =>
      if isCont4 b c1 && isCont c2 && isCont c3 then
        (some ((b - 0xF0) * 0x40000 + (c1 - 0x80) * 0x1000 + (c2 - 0x80) * 0x40 + (c3 - 0x80)), r)
      else (none, rest)
    | _ => (none, rest)
  else (none, rest)

/-- Fuel-indexed decoding loop; every step consumes at least the lead byte,
so `fuel = length of the input` always suffices. -/
def utf8DecodeIgnoreAux : Nat → List Nat → List Nat
  | 0, _ => []
  | _ + 1, [] => []
  | fuel + 1, b :: rest =>
    match utf8Step b rest with
    | (some cp, r) => cp :: utf8DecodeIgnoreAux fuel r
    | (none, r) => utf8DecodeIgnoreAux fuel r

/-- Decode a byte list as UTF-8, ignoring malformed sequences: the model of
`.decode('utf-8', errors='ignore')`.  Returns the decoded code points. -/
def utf8DecodeIgnore (l : List Nat) : List Nat :=
  utf8DecodeIgnoreAux l.length l

/-! ### The interactive per-command collection loop

Model of `ssh_mac_interactive.py` lines 43-52.  The channel is an oracle:
one `Option` chunk per poll iteration — `some bytes` means `recv_ready()`
was true and `recv(4096)` returned those bytes, `none` means no data was
ready so the loop sleeps 0.1 s.  Once the oracle list is exhausted the
channel is silent forever.  `elapsed` is `time.time() - start_time` in
deciseconds; reading data resets it to 0 (`start_time = time.time()`). -/

/-- The rolling 30-second (300 ds) inactivity window of the collection loop. -/
def inactivityLimit : Nat := 300

/-- One command's output-collection loop: returns the accumulated decoded
output (the local `output` string, as code points) and the event trace.
`env` is the channel oracle, `elapsed` the deciseconds since the window
last (re)started, `acc` the accumulator so far. -/
def collectLoop : List (Option (List Nat)) → Nat → List Nat → List Nat × List Event
  | [], elapsed, acc =>
    if inactivityLimit ≤ elapsed then (acc, [])
    else (acc, List.replicate (inactivityLimit - elapsed) (Event.sleepDs 1))
  | none :: rest, elapsed, acc =>
    if inactivityLimit ≤ elapsed then (acc, [])
    else
      let r := collectLoop rest (elapsed + 1) acc
      (r.1, Event.sleepDs 1 :: r.2)
  | some chunk :: rest, elapsed, acc =>
    if inactivityLimit ≤ elapsed then (acc, [])
    else
      let d := utf8DecodeIgnore chunk
      let r := collectLoop rest 0 (acc ++ d)
      (r.1, Event.recvChunk chunk :: Event.printData d :: r.2)

/-! ### The interactive session driver (`run_interactive_ssh`)

Model of `ssh_mac_interactive.py` lines 8-59.  The environment supplies the
banner chunks available during the initial drain (`while channel.recv_ready():
channel.recv(4096)`, no sleeping, data discarded) and one poll oracle per
queued command.  Failures of connect, shell allocation, or any read are
modelled by an optional failure stage; the `try/finally` appends exactly one
connection close to whatever trace the body produced. -/

/-- Channel environment for one interactive run. -/
structure IEnv where
  banner : List (List Nat)
  cmdPolls : List (List (Option (List Nat)))

/-- Where an exception interrupts the interactive body, if anywhere:
at `client.connect`, at `client.invoke_shell`, or during command `i`
(any read or send of that command raising). -/
inductive IStage where
  | atConnect
  | atShell
  | atCmd (i : Nat)
  deriving DecidableEq, Repr

/-- The per-command loop of the driver (`for cmd in commands:` body): for
each command, print the running banner line, send the command terminated by a
newline, sleep the fixed 2-second settle delay, then run the collection
loop starting from a fresh empty accumulator.  Returns the event trace and
the (discarded by the caller) collected outputs, one per command. -/
def runCmds : List String → List (List (Option (List Nat))) → List Event × List (List Nat)
  | [], _ => ([], [])
  | c :: cs, polls =>
    let col := collectLoop (polls.headD []) 0 []
    let rest := runCmds cs polls.tail
    (Event.printMsg ("\n>>> Running: " ++ c) :: Event.send (c ++ "\n") ::
       Event.sleepDs 20 :: (col.2 ++ rest.1),
     col.1 :: rest.2)

/-- Events before the first command: connect prints, shell allocation, the
channel timeout, and the fixed 1-second shell-readiness wait. -/
def interactivePre (host : String) : List Event :=
  [Event.printMsg ("Connecting to " ++ host ++ "..."), Event.connectEv,
   Event.printMsg "Connected!", Event.invokeShell, Event.setChannelTimeout 120,
   Event.sleepDs 10]

/-- Model of `run_interactive_ssh(host, username, password, commands)`:
returns the event trace and the Boolean result.  `fail` is the stage at
which an exception is raised, with its message, or `none` for a clean run. -/
def run_interactive_ssh (host : String) (commands : List String) (env : IEnv)
    (fail : Option (IStage × String)) : List Event × Bool :=
  match fail with
  | some (IStage.atConnect, m) =>
    ([Event.printMsg ("Connecting to " ++ host ++ "..."),
      Event.printMsg ("Error: " ++ m), Event.closeEv], false)
  | some (IStage.atShell, m) =>
    ([Event.printMsg ("Connecting to " ++ host ++ "..."), Event.connectEv,
      Event.printMsg "Connected!", Event.printMsg ("Error: " ++ m),
      Event.closeEv], false)
  | some (IStage.atCmd i, m) =>
    let done := runCmds (commands.take i) env.cmdPolls
    let started : List Event :=
      match commands[i]? with
      | some c => [Event.printMsg ("\n>>> Running: " ++ c), Event.send (c ++ "\n")]
      | none => []
    (interactivePre host ++ env.banner.map Event.drainRecv ++ done.1 ++ started ++
       [Event.printMsg ("Error: " ++ m), Event.closeEv], false)
  | none =>
    (interactivePre host ++ env.banner.map Event.drainRecv ++
       (runCmds commands env.cmdPolls).1 ++ [Event.closeEv], true)

/-- Default command list of the interactive script's `__main__` block. -/
def interactiveDefaultCommands : List String :=
  ["export NVM_DIR=\"/Users/user289978/.nvm\" && [ -s \"$NVM_DIR/nvm.sh\" ] && . \"$NVM_DIR/nvm.sh\"",
   "cd ~/love-ledger && npx expo start --ios --no-dev --minify 2>&1 &",
   "sleep 10 && echo \"Metro started, checking status...\"",
   "curl -s http://localhost:8081/status || echo \"Metro not responding yet\""]

/-- Command list chosen by the interactive script's `__main__` block:
`sys.argv[1:]` if any arguments were given, else the built-in sequence. -/
def interactiveMainCommands (argv : List String) : List String :=
  if argv.length > 1 then argv.drop 1 else interactiveDefaultCommands

/-! ### The file fetcher (`download_file`, `ssh_download.py`) -/

/-- Which steps of a `download_file` run succeed; the first failing step
raises.  `errText` is the text of the raised exception. -/
structure SftpEnv where
  connectOk : Bool
  sftpOpenOk : Bool
  getOk : Bool
  errText : String

/-- Model of `download_file(host, username, password, remote_path,
local_path)`: returns the event trace and the Boolean result.  Any
exception is caught, printed and turned into `false`; the `finally` block
closes the connection on every path. -/
def download_file (host remote_path local_path : String) (env : SftpEnv) :
    List Event × Bool :=
  let body : List Event × Bool :=
    if !env.connectOk then
      ([Event.printMsg ("Connecting to " ++ host ++ "..."),
        Event.printMsg ("Error: " ++ env.errText)], false)
    else if !env.sftpOpenOk then
      ([Event.printMsg ("Connecting to " ++ host ++ "..."), Event.connectEv,
        Event.printMsg "Connected!",
        Event.printMsg ("Error: " ++ env.errText)], false)
    else if !env.getOk then
      ([Event.printMsg ("Connecting to " ++ host ++ "..."), Event.connectEv,
        Event.printMsg "Connected!", Event.sftpOpen,
        Event.printMsg ("Downloading " ++ remote_path ++ " to " ++ local_path ++ "..."),
        Event.printMsg ("Error: " ++ env.errText)], false)
    else
      ([Event.printMsg ("Connecting to " ++ host ++ "..."), Event.connectEv,
        Event.printMsg "Connected!", Event.sftpOpen,
        Event.printMsg ("Downloading " ++ remote_path ++ " to " ++ local_path ++ "..."),
        Event.sftpGet remote_path local_path,
        Event.printMsg "Download complete!", Event.sftpClose], true)
  (body.1 ++ [Event.closeEv], body.2)

/-- Built-in default remote path of the fetcher's `__main__` block. -/
def defaultRemotePath : String := "/tmp/sim_screenshot3.png"

/-- Built-in default local path of the fetcher's `__main__` block. -/
def defaultLocalPath : String := "C:/Users/snpsa/love-ledger/scripts/sim_screenshot3.png"

/-- Paths chosen by the fetcher's `__main__` block from `sys.argv`
(`argv` includes the program name at index 0): the first two arguments if
at least two were given, else the built-in defaults. -/
def downloadMainPaths (argv : List String) : String × String :=
  if argv.length ≥ 3 then (argv.getD 1 "", argv.getD 2 "")
  else (defaultRemotePath, defaultLocalPath)

/-! ### The command runner (`run_ssh_command`, `ssh_mac.py`) -/

/-- Which steps of a `run_ssh_command` run succeed, and the remote
command's two streams.  `execOk` covers `exec_command` and both stream
reads; `errText` is the text of the raised exception, if any. -/
structure ExecEnv where
  connectOk : Bool
  execOk : Bool
  stdoutData : String
  stderrData : String
  errText : String

/-- Model of `run_ssh_command(host, username, password, command)`: returns
the event trace and the result pair — `(some stdout, stderr)` on success,
`(none, error text)` when any exception occurs.  Both streams are read to
completion before either is printed, and a stream is printed only when
non-empty. -/
def run_ssh_command (host command : String) (env : ExecEnv) :
    List Event × (Option String × String) :=
  let body : List Event × (Option String × String) :=
    if !env.connectOk then
      ([Event.printMsg ("Connecting to " ++ host ++ "..."),
        Event.printMsg ("Error: " ++ env.errText)], (none, env.errText))
    else if !env.execOk then
      ([Event.printMsg ("Connecting to " ++ host ++ "..."), Event.connectEv,
        Event.printMsg "Connected!",
        Event.printMsg ("Error: " ++ env.errText)], (none, env.errText))
    else
      ([Event.printMsg ("Connecting to " ++ host ++ "..."), Event.connectEv,
        Event.printMsg "Connected!", Event.execCommand command 300,
        Event.readStdout, Event.readStderr] ++
       (if env.stdoutData ≠ "" then [Event.printMsg "STDOUT:", Event.printMsg env.stdoutData] else []) ++
       (if env.stderrData ≠ "" then [Event.printMsg "STDERR:", Event.printMsg env.stderrData] else []),
       (some env.stdoutData, env.stderrData))
  (body.1 ++ [Event.closeEv], body.2)

/-- Built-in default command of the runner's `__main__` block. -/
def defaultCommand : String := "pwd && ls -la"

/-- Command chosen by the runner's `__main__` block:
`sys.argv[1] if len(sys.argv) > 1 else "pwd && ls -la"` — only the FIRST
argument is used, any further arguments are ignored. -/
def runnerMainCommand (argv : List String) : String :=
  if argv.length > 1 then argv.getD 1 "" else defaultCommand

/-- Modelled from the spec's words (for comparison with `runnerMainCommand`):
"`<command...>` joined as one string" — all arguments joined with spaces. -/
def runnerMainCommandSpec (argv : List String) : String :=
  if argv.length > 1 then String.intercalate " " (argv.drop 1) else defaultCommand

/-! ### Derived notions used in theorem statements -/

/-- The events one queued command contributes to the driver trace: the
running banner print, the newline-terminated send, the 2-second settle
delay, then that command's whole collection loop. -/
def cmdBlock (c : String) (e : List (Option (List Nat))) : List Event :=
  Event.printMsg ("\n>>> Running: " ++ c) :: Event.send (c ++ "\n") ::
    Event.sleepDs 20 :: (collectLoop e 0 []).2

/-- A channel oracle that stays silent for 29.9 s, produces a chunk, stays
silent for another 29.9 s, produces a second chunk, then goes quiet: it
exercises the rolling reset of the inactivity window. -/
def rollingDemoEnv : List (Option (List Nat)) :=
  List.replicate 299 none ++ [some [65]] ++ List.replicate 299 none ++ [some [66]]

/-! ## Helper lemmas -/

theorem filterMapReplicateNone {α : Type} (f : Event → Option α) (e : Event)
    (h : f e = none) (n : Nat) : (List.replicate n e).filterMap f = [] := by
  induction n with
  | zero => rfl
  | succ m ih => simp [List.replicate_succ, List.filterMap_cons, h, ih]

theorem countPReplicateFalse (p : Event → Bool) (e : Event) (h : p e = false)
    (n : Nat) : (List.replicate n e).countP p = 0 := by
  induction n with
  | zero => rfl
  | succ m ih => simp [List.replicate_succ, List.countP_cons, h, ih]

theorem sendOfDrain (banner : List (List Nat)) :
    (banner.map Event.drainRecv).filterMap sendOf = [] := by
  induction banner with
  | nil => rfl
  | cons b bs ih => simp [List.filterMap_cons, sendOf, ih]

theorem closeCountDrain (banner : List (List Nat)) :
    closeCount (banner.map Event.drainRecv) = 0 := by
  induction banner with
  | nil => rfl
  | cons b bs ih => simpa [closeCount, List.countP_cons] using ih

theorem collectLoopSilent (k : Nat) : ∀ (el : Nat) (acc : List Nat),
    collectLoop (List.replicate k (none : Option (List Nat))) el acc =
      (acc, List.replicate (inactivityLimit - el) (Event.sleepDs 1)) := by
  induction k with
  | zero =>
    intro el acc
    simp only [List.replicate, collectLoop]
    split
    · next h => simp [Nat.sub_eq_zero_of_le h]
    · rfl
  | succ m ih =>
    intro el acc
    simp only [List.replicate_succ, collectLoop]
    split
    · next h => simp [Nat.sub_eq_zero_of_le h]
    · next h =>
      rw [ih (el + 1) acc]
      have hlt : el < inactivityLimit := Nat.lt_of_not_le h
      have : inactivityLimit - el = (inactivityLimit - (el + 1)) + 1 := by omega
      rw [this, List.replicate_succ]

theorem collectLoopTraceMem (e : List (Option (List Nat))) :
    ∀ (el : Nat) (acc : List Nat) (ev : Event), ev ∈ (collectLoop e el acc).2 →
      ev = Event.sleepDs 1 ∨ (∃ c, ev = Event.recvChunk c) ∨
        (∃ d, ev = Event.printData d) := by
  induction e with
  | nil =>
    intro el acc ev hm
    simp only [collectLoop] at hm
    split at hm
    · simp at hm
    · exact Or.inl (List.eq_of_mem_replicate hm)
  | cons o rest ih =>
    intro el acc ev hm
    cases o <;> simp only [collectLoop] at hm <;> split at hm
    · simp at hm
    · rcases List.mem_cons.mp hm with h | h
      · exact Or.inl h
      · exact ih _ _ _ h
    · simp at hm
    · rcases List.mem_cons.mp hm with h | h
      · exact Or.inr (Or.inl ⟨_, h⟩)
      · rcases List.mem_cons.mp h with h2 | h2
        · exact Or.inr (Or.inr ⟨_, h2⟩)
        · exact ih _ _ _ h2

theorem collectLoopNoSend (e : List (Option (List Nat))) (el : Nat) (acc : List Nat) :
    (collectLoop e el acc).2.filterMap sendOf = [] := by
  rw [List.filterMap_eq_nil]
  intro ev hm
  rcases collectLoopTraceMem e el acc ev hm with h | ⟨c, h⟩ | ⟨d, h⟩ <;> subst h <;> rfl

theorem collectLoopNoClose (e : List (Option (List Nat))) (el : Nat) (acc : List Nat) :
    closeCount (collectLoop e el acc).2 = 0 := by
  rw [closeCount, List.countP_eq_zero]
  intro ev hm
  rcases collectLoopTraceMem e el acc ev hm with h | ⟨c, h⟩ | ⟨d, h⟩ <;> subst h <;> simp

theorem runCmdsNoClose (cs : List String) : ∀ polls,
    closeCount (runCmds cs polls).1 = 0 := by
  induction cs with
  | nil => intro polls; rfl
  | cons c rest ih =>
    intro polls
    simp only [runCmds, closeCount, List.countP_cons, List.countP_append]
    have h1 := collectLoopNoClose (polls.headD []) 0 []
    have h2 := ih polls.tail
    rw [closeCount] at h1 h2
    simp only [h1, h2]
    simp

theorem runCmdsSends (cs : List String) : ∀ polls,
    (runCmds cs polls).1.filterMap sendOf = cs.map (fun c => c ++ "\n") := by
  induction cs with
  | nil => intro polls; rfl
  | cons c rest ih =>
    intro polls
    simp only [runCmds]
    simp [List.filterMap_cons, List.filterMap_append, sendOf,
      collectLoopNoSend, ih]

theorem getDTail {α : Type} (l : List α) (i : Nat) (d : α) :
    l.tail.getD i d = l.getD (i + 1) d := by
  cases l <;> simp [List.getD]

theorem headDGetD {α : Type} (l : List α) (d : α) : l.headD d = l.getD 0 d := by
  cases l <;> simp

theorem runCmdsBlocks (cs : List String) : ∀ polls,
    (runCmds cs polls).1 =
      ((List.range cs.length).map
        (fun i => cmdBlock (cs.getD i "") (polls.getD i []))).flatten := by
  induction cs with
  | nil => intro polls; rfl
  | cons c rest ih =>
    intro polls
    have hmap :
        List.map ((fun i => cmdBlock ((c :: rest).getD i "") (polls.getD i [])) ∘ Nat.succ)
            (List.range rest.length) =
          List.map (fun i => cmdBlock (rest.getD i "") (polls.tail.getD i []))
            (List.range rest.length) := by
      apply List.map_congr_left
      intro i _
      simp [Function.comp, List.getD_cons_succ, getDTail]
    simp only [List.length_cons, List.range_succ_eq_map, List.map_cons, List.map_map,
      List.flatten_cons, hmap, ← ih polls.tail]
    simp only [runCmds, cmdBlock, List.getD_cons_zero, headDGetD, List.cons_append,
      List.append_assoc]

/-! ## Claim theorems -/

/-- C1: every read of new bytes resets the 30-second inactivity window of
the interactive collection loop (the elapsed counter returns to 0), a
channel that keeps producing data keeps the loop alive past the nominal
30 seconds (the demo oracle yields 89.8 s of polling and still collects
the late chunk), and a silent channel ends collection after exactly 30
continuous seconds of no data, not earlier. -/
theorem c1_rolling_inactivity_window :
    (∀ (k el : Nat) (acc : List Nat),
        collectLoop (List.replicate k none) el acc =
          (acc, List.replicate (inactivityLimit - el) (Event.sleepDs 1)))
    ∧ (∀ (chunk : List Nat) (rest : List (Option (List Nat))) (el : Nat) (acc : List Nat),
        el < inactivityLimit →
          collectLoop (some chunk :: rest) el acc =
            ((collectLoop rest 0 (acc ++ utf8DecodeIgnore chunk)).1,
              Event.recvChunk chunk :: Event.printData (utf8DecodeIgnore chunk) ::
                (collectLoop rest 0 (acc ++ utf8DecodeIgnore chunk)).2))
    ∧ tickCount (collectLoop rollingDemoEnv 0 []).2 = 898
    ∧ inactivityLimit < tickCount (collectLoop rollingDemoEnv 0 []).2
    ∧ (collectLoop rollingDemoEnv 0 []).1 = [65, 66] := by
  refine ⟨collectLoopSilent, ?_, ?_, ?_, ?_⟩
  · intro chunk rest el acc h
    have h' : ¬ inactivityLimit ≤ el := Nat.not_le.mpr h
    simp [collectLoop, h']
  · set_option maxRecDepth 10000 in decide
  · set_option maxRecDepth 10000 in decide
  · set_option maxRecDepth 10000 in decide

theorem c1_rolling_inactivity_window_witness :
    collectLoop [some [65]] 5 [] =
      ((collectLoop [] 0 ([] ++ utf8DecodeIgnore [65])).1,
        Event.recvChunk [65] :: Event.printData (utf8DecodeIgnore [65]) ::
          (collectLoop [] 0 ([] ++ utf8DecodeIgnore [65])).2) :=
  c1_rolling_inactivity_window.2.1 [65] [] 5 [] (by decide)

/-- C2: in all three entry points the connection handle is closed exactly
once on every exit path, including the paths where the body raises
partway through. -/
theorem c2_connection_closed_once (host remote loc cmd : String) (denv : SftpEnv)
    (eenv : ExecEnv) (cmds : List String) (ienv : IEnv)
    (fail : Option (IStage × String)) :
    closeCount (download_file host remote loc denv).1 = 1 ∧
    closeCount (run_ssh_command host cmd eenv).1 = 1 ∧
    closeCount (run_interactive_ssh host cmds ienv fail).1 = 1 := by
  refine ⟨?_, ?_, ?_⟩
  · rcases denv with ⟨co, so, go, m⟩
    cases co <;> cases so <;> cases go <;>
      simp [download_file, closeCount, List.countP_append, List.countP_cons]
  · rcases eenv with ⟨co, eo, sd, se, m⟩
    cases co <;> cases eo <;>
      rcases eq_or_ne sd "" with hsd | hsd <;>
      rcases eq_or_ne se "" with hse | hse <;>
      simp [run_ssh_command, closeCount, List.countP_append, List.countP_cons, hsd, hse]
  · have hpre : closeCount (interactivePre host) = 0 := by
      simp [interactivePre, closeCount, List.countP_cons]
    rcases fail with _ | ⟨st, m⟩
    · have h1 := closeCountDrain ienv.banner
      have h2 := runCmdsNoClose cmds ienv.cmdPolls
      simp only [closeCount] at hpre h1 h2
      simp only [run_interactive_ssh, closeCount, List.countP_append, hpre, h1, h2]
      decide
    · rcases st with _ | _ | i
      · simp [run_interactive_ssh, closeCount, List.countP_cons]
      · simp [run_interactive_ssh, closeCount, List.countP_cons]
      · have h1 := closeCountDrain ienv.banner
        have h2 := runCmdsNoClose (cmds.take i) ienv.cmdPolls
        simp only [closeCount] at hpre h1 h2
        cases hgi : cmds[i]? <;>
          simp [run_interactive_ssh, closeCount, hgi, List.countP_append,
            List.countP_cons, hpre, h1, h2]

/-- C3: the interactive driver sends the queued commands in exactly the
order supplied, each terminated by a newline, and the whole trace
decomposes into per-command blocks — running-banner print, send, settle
delay, then that command's complete collection loop — concatenated in
order, so no command's send overlaps the previous command's collection. -/
theorem c3_commands_in_order_no_overlap (host : String) (cmds : List String)
    (env : IEnv) :
    (run_interactive_ssh host cmds env none).1.filterMap sendOf =
        cmds.map (fun c => c ++ "\n")
    ∧ (run_interactive_ssh host cmds env none).1 =
        interactivePre host ++ env.banner.map Event.drainRecv ++
          ((List.range cmds.length).map
            (fun i => cmdBlock (cmds.getD i "") (env.cmdPolls.getD i []))).flatten ++
          [Event.closeEv] := by
  constructor
  · simp only [run_interactive_ssh, List.filterMap_append, runCmdsSends, sendOfDrain]
    simp [interactivePre, sendOf, List.filterMap_cons]
  · simp only [run_interactive_ssh, runCmdsBlocks]

/-- C4 counterexample: invoked with the two arguments `echo` and `hi`, the
command runner's `__main__` uses only `sys.argv[1]` — the executed command
is `echo`, not the spec's join `echo hi`. -/
theorem c4_counterexample :
    runnerMainCommand ["ssh_mac.py", "echo", "hi"] = "echo" ∧
    runnerMainCommandSpec ["ssh_mac.py", "echo", "hi"] = "echo hi" ∧
    runnerMainCommand ["ssh_mac.py", "echo", "hi"] ≠
      runnerMainCommandSpec ["ssh_mac.py", "echo", "hi"] := by
  refine ⟨rfl, ?_, ?_⟩ <;> decide

/-- C4 (amended): with one or more command-line arguments the command
runner executes exactly the FIRST argument as the command string — further
arguments are ignored, not joined — and with no arguments it executes
exactly `pwd && ls -la`. -/
theorem c4_first_argument_only (prog a : String) (rest : List String) :
    runnerMainCommand (prog :: a :: rest) = a ∧
    runnerMainCommand [prog] = "pwd && ls -la" ∧
    runnerMainCommand [] = "pwd && ls -la" := by
  refine ⟨?_, rfl, rfl⟩
  simp [runnerMainCommand]

/-- C5 counterexample: the interactive driver decodes with
`errors='ignore'`, so a malformed byte is silently dropped — decoding
`0x41 0xFF 0x42` yields the two code points `A B`, not the three code
points of a replacement decode (`A U+FFFD B`). -/
theorem c5_counterexample :
    utf8DecodeIgnore [0x41, 0xFF, 0x42] = [0x41, 0x42] ∧
    utf8DecodeIgnore [0x41, 0xFF, 0x42] ≠ [0x41, 0xFFFD, 0x42] := by decide

/-- C5 (amended): every chunk received by the collection loop is decoded
permissively with malformed byte sequences IGNORED (dropped — decoding is
a total function, never fatal), and the decoded text of each chunk is both
printed immediately and appended to the output accumulator: the final
accumulator is the initial one followed by the decodings of all received
chunks in order, and the printed data segments are exactly those
decodings. -/
theorem c5_decode_ignored_printed_appended (e : List (Option (List Nat))) :
    ∀ (el : Nat) (acc : List Nat),
      (collectLoop e el acc).1 =
          acc ++
            (((collectLoop e el acc).2.filterMap recvChunkOf).map utf8DecodeIgnore).flatten
      ∧ (collectLoop e el acc).2.filterMap printedDataOf =
          ((collectLoop e el acc).2.filterMap recvChunkOf).map utf8DecodeIgnore := by
  induction e with
  | nil =>
    intro el acc
    simp only [collectLoop]
    split
    · simp
    · rw [filterMapReplicateNone recvChunkOf (Event.sleepDs 1) rfl,
        filterMapReplicateNone printedDataOf (Event.sleepDs 1) rfl]
      simp
  | cons o rest ih =>
    intro el acc
    cases o with
    | none =>
      simp only [collectLoop]
      split
      · simp
      · simpa [List.filterMap_cons, recvChunkOf, printedDataOf] using ih (el + 1) acc
    | some chunk =>
      simp only [collectLoop]
      split
      · simp
      · have ihx := ih 0 (acc ++ utf8DecodeIgnore chunk)
        simp only [List.filterMap_cons, recvChunkOf, printedDataOf, List.map_cons,
          List.flatten_cons] at *
        constructor
        · rw [ihx.1, List.append_assoc]
        · rw [ihx.2]

/-- C6 counterexample: the banner drain is NOT immediate — between shell
allocation (`invoke_shell`) and the first drain read the driver sleeps a
fixed 1 second (10 ds), as the trace of a concrete run shows at index 5. -/
theorem c6_counterexample :
    (run_interactive_ssh "h" ["ls"] (IEnv.mk [[72]] [[]]) none).1.take 7 =
      [Event.printMsg "Connecting to h...", Event.connectEv,
       Event.printMsg "Connected!", Event.invokeShell,
       Event.setChannelTimeout 120, Event.sleepDs 10, Event.drainRecv [72]] := by
  set_option maxRecDepth 4000 in decide

/-- C6 (amended): after shell allocation and a fixed 1-second
shell-readiness wait, any buffered banner output is drained in a tight
non-blocking poll — the drain itself contains no sleeps and no sends — and
the drain completes before the first queued command is sent. -/
theorem c6_banner_drain_after_ready_wait (host : String) (cmds : List String)
    (env : IEnv) :
    (run_interactive_ssh host cmds env none).1 =
        interactivePre host ++ env.banner.map Event.drainRecv ++
          (runCmds cmds env.cmdPolls).1 ++ [Event.closeEv]
    ∧ interactivePre host =
        [Event.printMsg ("Connecting to " ++ host ++ "..."), Event.connectEv,
         Event.printMsg "Connected!", Event.invokeShell,
         Event.setChannelTimeout 120, Event.sleepDs 10]
    ∧ (∀ ev ∈ env.banner.map Event.drainRecv, isSleep ev = false ∧ sendOf ev = none)
    ∧ (∀ ev ∈ interactivePre host, sendOf ev = none) := by
  refine ⟨rfl, rfl, ?_, ?_⟩
  · intro ev hm
    rcases List.mem_map.mp hm with ⟨b, _, rfl⟩
    exact ⟨rfl, rfl⟩
  · intro ev hm
    simp only [interactivePre, List.mem_cons, List.mem_singleton,
      List.not_mem_nil, or_false] at hm
    rcases hm with rfl | rfl | rfl | rfl | rfl | rfl <;> rfl

theorem c6_banner_drain_after_ready_wait_witness :
    isSleep (Event.drainRecv [72]) = false ∧ sendOf (Event.drainRecv [72]) = none :=
  (c6_banner_drain_after_ready_wait "h" ["ls"] (IEnv.mk [[72]] [[]])).2.2.1
    (Event.drainRecv [72]) (by simp)

/-- C7: `download_file` returns `true` exactly when connect, SFTP-open and
transfer all succeed; any exception during connect or transfer is caught
(the function is total), an error message is printed, and `false` is
returned. -/
theorem c7_download_catch_all (host remote loc : String) (env : SftpEnv) :
    ((download_file host remote loc env).2 = true ↔
        (env.connectOk ∧ env.sftpOpenOk ∧ env.getOk))
    ∧ ((download_file host remote loc env).2 = false →
        Event.printMsg ("Error: " ++ env.errText) ∈ (download_file host remote loc env).1)
    ∧ ((download_file host remote loc env).2 = true →
        Event.sftpGet remote loc ∈ (download_file host remote loc env).1) := by
  rcases env with ⟨co, so, go, m⟩
  cases co <;> cases so <;> cases go <;> simp [download_file]

theorem c7_download_catch_all_witness :
    Event.printMsg ("Error: " ++ "boom") ∈
      (download_file "h" "r" "l" (SftpEnv.mk false true true "boom")).1 :=
  (c7_download_catch_all "h" "r" "l" (SftpEnv.mk false true true "boom")).2.1 (by decide)

/-- C8: `run_ssh_command` returns the pair `(some stdout, stderr)` on
success and `(none, error text)` when any exception occurs; on success both
streams are read to completion (the read events close the first six trace
entries) before any stream content is printed, and each non-empty stream's
content is printed. -/
theorem c8_runner_result_pair (host cmd : String) (env : ExecEnv) :
    ((env.connectOk && env.execOk) = true →
        (run_ssh_command host cmd env).2 = (some env.stdoutData, env.stderrData)
        ∧ (run_ssh_command host cmd env).1.take 6 =
            [Event.printMsg ("Connecting to " ++ host ++ "..."), Event.connectEv,
             Event.printMsg "Connected!", Event.execCommand cmd 300,
             Event.readStdout, Event.readStderr]
        ∧ (env.stdoutData ≠ "" →
            Event.printMsg env.stdoutData ∈ (run_ssh_command host cmd env).1.drop 6)
        ∧ (env.stderrData ≠ "" →
            Event.printMsg env.stderrData ∈ (run_ssh_command host cmd env).1.drop 6))
    ∧ ((env.connectOk && env.execOk) = false →
        (run_ssh_command host cmd env).2 = (none, env.errText)) := by
  rcases env with ⟨co, eo, sd, se, m⟩
  constructor
  · intro h
    rw [Bool.and_eq_true] at h
    obtain ⟨hco, heo⟩ := h
    subst hco
    subst heo
    refine ⟨rfl, rfl, ?_, ?_⟩
    · intro hsd
      simp [run_ssh_command, hsd]
    · intro hse
      rcases eq_or_ne sd "" with hsd | hsd <;> simp [run_ssh_command, hsd, hse]
  · intro h
    cases co <;> cases eo <;> first | rfl | simp at h

theorem c8_runner_result_pair_witness :
    (run_ssh_command "h" "c" (ExecEnv.mk true true "out" "err" "m")).2 =
      (some "out", "err") :=
  ((c8_runner_result_pair "h" "c" (ExecEnv.mk true true "out" "err" "m")).1 (by decide)).1

/-- C9: invoking the file fetcher with exactly one command-line argument
ignores it entirely — both paths fall back to the built-in defaults,
exactly as when invoked with no arguments. -/
theorem c9_single_argument_ignored (argv : List String) (h : argv.length = 2) :
    downloadMainPaths argv = (defaultRemotePath, defaultLocalPath) ∧
    downloadMainPaths argv = downloadMainPaths (argv.take 1) := by
  have h3 : ¬ argv.length ≥ 3 := by omega
  have h1 : ¬ (argv.take 1).length ≥ 3 := by
    have := List.length_take 1 argv
    omega
  simp [downloadMainPaths, h3, h1]

theorem c9_single_argument_ignored_witness :
    downloadMainPaths ["ssh_download.py", "only_arg"] =
      (defaultRemotePath, defaultLocalPath) :=
  (c9_single_argument_ignored ["ssh_download.py", "only_arg"] (by decide)).1

/-- C10: the interactive driver discards all collected output — each
command's accumulator starts from the empty string, the success result is
`true` for every environment (whatever output was collected), and no
output string is part of the returned value. -/
theorem c10_output_discarded (host : String) (cmds : List String) (env : IEnv) :
    (run_interactive_ssh host cmds env none).2 = true
    ∧ (∀ env' : IEnv,
        (run_interactive_ssh host cmds env none).2 =
          (run_interactive_ssh host cmds env' none).2)
    ∧ (∀ (c : String) (cs : List String) (polls : List (List (Option (List Nat)))),
        (runCmds (c :: cs) polls).2 =
          (collectLoop (polls.headD []) 0 []).1 :: (runCmds cs polls.tail).2) :=
  ⟨rfl, fun _ => rfl, fun _ _ _ => rfl⟩

end Backtrack
